import Mathlib

/-!
# Verification of the concourse-up deployment orchestrator

A shallow embedding of `concourse/deploy.go` (package `concourse`).  Every
external collaborator (configuration store, terraform client, bosh client,
fly client, certificate generator, PEM/X509 parsing, the clock, stdout and
stderr) is modelled as a pure function supplied in an `Env` record; the
orchestration code itself is translated statement by statement.  Each embedded
function returns the Go function's result together with a trace of the
externally observable calls it made, so that ordering properties
(pipeline-set versus bosh-deploy, terraform-apply versus the region check,
certificate-generator invocations) can be stated and proved.
-/

namespace ConcourseUp

/-- A TLS certificate bundle as returned by the certificate generator
(`certGenerator` in the Go source): CA certificate, certificate, key. -/
structure CertBundle where
  caCert : String
  cert : String
  key : String
  deriving DecidableEq

/-- The persisted configuration record (package `config`'s `Config`), with the
fields read or written by `deploy.go`. -/
structure Config where
  project : String
  deployment : String
  region : String
  domain : String
  sourceAccessIP : String
  hostedZoneID : String
  hostedZoneRecordPrefix : String
  directorPublicIP : String
  concourseWorkerCount : Nat
  concourseWorkerSize : String
  concourseWebSize : String
  rdsInstanceClass : String
  concourseUsername : String
  concoursePassword : String
  directorCACert : String
  directorCert : String
  directorKey : String
  concourseCert : String
  concourseKey : String
  concourseCACert : String
  concourseUserProvidedCert : Bool
  credhubCACert : String
  credhubPassword : String
  credhubURL : String
  credhubUsername : String
  deriving DecidableEq

/-- The terraform output consumed by `deploy.go`: the ATC (administrative
service) public IP and the director public IP (`Metadata.ATCPublicIP.Value`,
`Metadata.DirectorPublicIP.Value`). -/
structure Metadata where
  atcPublicIP : String
  directorPublicIP : String
  deriving DecidableEq

/-- The deploy arguments consumed by `deploy.go` (`client.deployArgs`). -/
structure DeployArgs where
  awsRegion : String
  domain : String
  tlsCert : String
  tlsKey : String
  workerCount : Nat
  workerSize : String
  webSize : String
  dbSize : String
  dbSizeIsSet : Bool
  selfUpdate : Bool
  deriving DecidableEq

/-- A Go `error` value.  Errors coming back from collaborators are opaque
(`external`); the two errors constructed by `deploy.go` itself with
`fmt.Errorf` get their own constructors carrying the formatted values. -/
inductive GoError where
  | external (msg : String)
  | regionMismatch (stored requested : String)
  | concourseNotRunning
  deriving DecidableEq

/-- The message text of a `GoError`, matching the `fmt.Errorf` format strings
in `deploy.go`. -/
def GoError.message : GoError → String
  | .external m => m
  | .regionMismatch stored requested =>
      "found previous deployment in " ++ stored ++ ". Refusing to deploy to "
        ++ requested ++ " as changing regions for existing deployments is not supported"
  | .concourseNotRunning =>
      "In detach mode but it seems that concourse is not currently running"

/-- Decidable equality for Go-style results, so concrete runs can be checked
by evaluation. -/
instance {e a : Type} [DecidableEq e] [DecidableEq a] : DecidableEq (Except e a) := fun x y =>
  match x, y with
  | .ok u, .ok v =>
      if h : u = v then isTrue (congrArg Except.ok h)
      else isFalse fun hc => h (Except.ok.inj hc)
  | .error u, .error v =>
      if h : u = v then isTrue (congrArg Except.error h)
      else isFalse fun hc => h (Except.error.inj hc)
  | .ok _, .error _ => isFalse fun hc => Except.noConfusion hc
  | .error _, .ok _ => isFalse fun hc => Except.noConfusion hc

/-- Externally observable calls made during a run, in program order. -/
inductive Event where
  | findUserIP
  | findHostedZone (domain : String)
  | applyTerraform
  | terraformOutput
  | certGen (deployment : String) (hosts : List String)
  | updateConfig (c : Config)
  | canConnect
  | setPipeline (allowVersionMismatch : Bool)
  | hasAsset (name : String)
  | loadAsset (name : String)
  | boshDeploy (stateBytes credsBytes : String) (detach : Bool)
  | storeAsset (name contents : String)
  deriving DecidableEq

/-- `bosh.StateFilename`; the constant lives in package `bosh`, outside
`deploy.go`, so only its role (a well-known asset name distinct from the
creds asset name) matters here. -/
def StateFilename : String := "director-state.json"

/-- `bosh.CredsFilename`; see `StateFilename`. -/
def CredsFilename : String := "director-creds.yml"

/-- `time.Hour` in nanoseconds (Go `time.Duration` counts nanoseconds). -/
def hourNS : Int := 3600 * 1000000000

/-- Go's `strings.TrimSuffix`: drop `suffix` from the end of `s` when present,
otherwise return `s` unchanged (expressed on the character lists so that it
evaluates by kernel reduction). -/
def trimSuffix (s suffix : String) : String :=
  if suffix.data.isSuffixOf s.data then ⟨s.data.take (s.data.length - suffix.data.length)⟩ else s

/-- The rendering of the `deployMsg` template over a `Config`
(`writeDeploySuccessMessage`). -/
def deploySuccessMessage (c : Config) : String :=
  "DEPLOY SUCCESSFUL. Log in with:\nfly --target " ++ c.project ++ " login" ++
  (if c.concourseUserProvidedCert then "" else " --insecure") ++
  " --concourse-url https://" ++ c.domain ++ " --username " ++ c.concourseUsername ++
  " --password " ++ c.concoursePassword ++
  "\n\nMetrics available at https://" ++ c.domain ++
  ":3000 using the same username and password\n\nLog into credhub with:\neval \"$(concourse-up info --env --region " ++ c.region ++ ")\"\n"

/-- The collaborators of one `Deploy` run, as pure functions.  A `String`
result in an error position is the opaque message of the collaborator's
error; `Option String` is `nil`-or-error, `Except String α` is
error-or-value. -/
structure Env where
  /-- `configClient.LoadOrCreate(deployArgs)`: config and `createdNewConfig`. -/
  loadOrCreate : Except String (Config × Bool)
  /-- `configClient.Update(config)`. -/
  update : Config → Option String
  /-- `configClient.HasAsset(name)`. -/
  hasAsset : String → Except String Bool
  /-- `configClient.LoadAsset(name)` (bytes as a string). -/
  loadAsset : String → Except String String
  /-- `configClient.StoreAsset(name, bytes)`. -/
  storeAsset : String → String → Option String
  /-- `util.FindUserIP()`. -/
  findUserIP : Except String String
  /-- `iaasClient.FindLongestMatchingHostedZone(domain)`: zone name and ID. -/
  findHostedZone : String → Except String (String × String)
  /-- error from `terraformClientFactory`. -/
  terraformFactory : Option String
  /-- `terraformClient.Apply(false)`. -/
  terraformApply : Option String
  /-- `terraformClient.Output()`. -/
  terraformOutput : Except String Metadata
  /-- `metadata.AssertValid()`. -/
  assertValid : Metadata → Option String
  /-- error from `flyClientFactory`. -/
  flyFactory : Option String
  /-- `flyClient.CanConnect()`. -/
  canConnect : Except String Bool
  /-- `flyClient.SetDefaultPipeline(deployArgs, config, allowVersionMismatch)`. -/
  setDefaultPipeline : DeployArgs → Config → Bool → Option String
  /-- `client.certGenerator(name, hosts...)`. -/
  certGenerator : String → List String → Except String CertBundle
  /-- error from `client.buildBoshClient(config, metadata)`. -/
  buildBoshClient : Option String
  /-- `boshClient.Deploy(stateBytes, credsBytes, detach)`: new state bytes,
  new creds bytes, error. -/
  boshDeploy : String → String → Bool → String × String × Option String
  /-- `yaml.Unmarshal` of the creds bytes into `credhubCreds`:
  `credhub_cli_password` and the `credhub-tls` CA cert. -/
  yamlUnmarshalCredhub : String → Except String (String × String)
  /-- `stdout.Write`. -/
  writeStdout : String → Option String
  /-- `stderr.Write`. -/
  writeStderr : String → Option String
  /-- the `config.DBSizes` size-to-instance-class map. -/
  dbSizes : String → String
  /-- `pem.Decode` on a certificate string: the block bytes, or `none`. -/
  pemDecode : String → Option String
  /-- `x509.ParseCertificate` on block bytes: `NotAfter` as epoch
  nanoseconds, or `none` on parse error. -/
  parseCertificate : String → Option Int
  /-- the current instant (`time.Until(t) = t - now`), epoch nanoseconds. -/
  now : Int

/-- `timeTillExpiry`: remaining validity of a PEM certificate, zero on any
decode or parse failure. -/
def timeTillExpiry (env : Env) (cert : String) : Int :=
  match env.pemDecode cert with
  | none => 0
  | some block =>
    match env.parseCertificate block with
    | none => 0
    | some notAfter => notAfter - env.now

/-- `loadDirectorState`: probe for the state asset, absent means empty bytes. -/
def loadDirectorState (env : Env) : Except GoError String × List Event :=
  match env.hasAsset StateFilename with
  | .error e => (.error (.external e), [.hasAsset StateFilename])
  | .ok false => (.ok "", [.hasAsset StateFilename])
  | .ok true =>
    match env.loadAsset StateFilename with
    | .error e => (.error (.external e), [.hasAsset StateFilename, .loadAsset StateFilename])
    | .ok s => (.ok s, [.hasAsset StateFilename, .loadAsset StateFilename])

/-- `loadDirectorCreds`: probe for the creds asset, absent means empty bytes. -/
def loadDirectorCreds (env : Env) : Except GoError String × List Event :=
  match env.hasAsset CredsFilename with
  | .error e => (.error (.external e), [.hasAsset CredsFilename])
  | .ok false => (.ok "", [.hasAsset CredsFilename])
  | .ok true =>
    match env.loadAsset CredsFilename with
    | .error e => (.error (.external e), [.hasAsset CredsFilename, .loadAsset CredsFilename])
    | .ok s => (.ok s, [.hasAsset CredsFilename, .loadAsset CredsFilename])

/-- `setUserIP`: resolve the operator's IP and, when it changed, persist the
new allow-list entry after warning on stderr. -/
def setUserIP (env : Env) (config : Config) : Except GoError Config × List Event :=
  match env.findUserIP with
  | .error e => (.error (.external e), [.findUserIP])
  | .ok userIP =>
    if config.sourceAccessIP ≠ userIP then
      let config := { config with sourceAccessIP := userIP }
      match env.writeStderr ("\nWARNING: allowing access from local machine (address: " ++ userIP ++ ")\n\n") with
      | some e => (.error (.external e), [.findUserIP])
      | none =>
        match env.update config with
        | some e => (.error (.external e), [.findUserIP, .updateConfig config])
        | none => (.ok config, [.findUserIP, .updateConfig config])
    else (.ok config, [.findUserIP])

/-- `setHostedZone`: when a domain was supplied, bind the longest matching
hosted zone, derive the record prefix, and persist. -/
def setHostedZone (env : Env) (args : DeployArgs) (config : Config) :
    Except GoError Config × List Event :=
  let domain := args.domain
  if args.domain = "" then (.ok config, [])
  else
    match env.findHostedZone domain with
    | .error e => (.error (.external e), [.findHostedZone domain])
    | .ok (hostedZoneName, hostedZoneID) =>
      let config := { config with
        hostedZoneID := hostedZoneID,
        hostedZoneRecordPrefix := trimSuffix domain ("." ++ hostedZoneName),
        domain := domain }
      match env.writeStderr ("\nWARNING: adding record " ++ domain ++ " to Route53 hosted zone " ++ hostedZoneName ++ " ID: " ++ hostedZoneID ++ "\n\n") with
      | some e => (.error (.external e), [.findHostedZone domain])
      | none =>
        match env.update config with
        | some e => (.error (.external e), [.findHostedZone domain, .updateConfig config])
        | none => (.ok config, [.findHostedZone domain, .updateConfig config])

/-- The tail of `checkPreTerraformConfigRequirements` after the region and
RDS-size mutations (split out so the intermediate configuration is named):
operator IP resolution (skipped in self-update mode) followed by
hosted-zone binding. -/
def preTerraformIPAndZone (env : Env) (args : DeployArgs) (conf : Config) :
    Except GoError Config × List Event :=
  match (if args.selfUpdate then (.ok conf, ([] : List Event)) else setUserIP env conf) with
  | (.error e, t) => (.error e, t)
  | (.ok conf, t1) =>
    match setHostedZone env args conf with
    | (.error e, t) => (.error e, t1 ++ t)
    | (.ok conf, t2) => (.ok conf, t1 ++ t2)

/-- `checkPreTerraformConfigRequirements`: region lock, RDS size override,
operator IP (unless self-update), hosted-zone binding. -/
def checkPreTerraformConfigRequirements (env : Env) (args : DeployArgs) (conf : Config) :
    Except GoError Config × List Event :=
  let region := args.awsRegion
  if conf.region ≠ "" ∧ conf.region ≠ region then
    (.error (.regionMismatch conf.region region), [])
  else
    let conf := { conf with region := region }
    let conf :=
      if args.dbSizeIsSet then { conf with rdsInstanceClass := env.dbSizes args.dbSize }
      else conf
    preTerraformIPAndZone env args conf

/-- `ensureDirectorCerts`: generate the director bundle only when the stored
director CA certificate is empty. -/
def ensureDirectorCerts (env : Env) (config : Config) (metadata : Metadata) :
    Except GoError Config × List Event :=
  if config.directorCACert ≠ "" then (.ok config, [])
  else
    let ip := metadata.directorPublicIP
    match env.writeStdout ("\nGENERATING BOSH DIRECTOR CERTIFICATE (" ++ ip ++ ", 10.0.0.6)\n") with
    | some e => (.error (.external e), [])
    | none =>
      match env.certGenerator config.deployment [ip, "10.0.0.6"] with
      | .error e => (.error (.external e), [.certGen config.deployment [ip, "10.0.0.6"]])
      | .ok directorCerts =>
        (.ok { config with
          directorCACert := directorCerts.caCert,
          directorCert := directorCerts.cert,
          directorKey := directorCerts.key }, [.certGen config.deployment [ip, "10.0.0.6"]])

/-- `ensureConcourseCerts`: adopt a user-supplied pair verbatim; otherwise
keep the stored certificate when present, the domain unchanged and more than
28 days of validity remain; otherwise regenerate for the current domain. -/
def ensureConcourseCerts (env : Env) (args : DeployArgs) (domainUpdated : Bool)
    (config : Config) (metadata : Metadata) : Except GoError Config × List Event :=
  if args.tlsCert ≠ "" then
    (.ok { config with
      concourseCert := args.tlsCert,
      concourseKey := args.tlsKey,
      concourseUserProvidedCert := true }, [])
  else if config.concourseCert ≠ "" ∧ domainUpdated = false ∧
      timeTillExpiry env config.concourseCert > 28 * 24 * hourNS then
    (.ok config, [])
  else
    match env.certGenerator config.deployment [config.domain] with
    | .error e => (.error (.external e), [.certGen config.deployment [config.domain]])
    | .ok concourseCerts =>
      (.ok { config with
        concourseCert := concourseCerts.cert,
        concourseKey := concourseCerts.key,
        concourseCACert := concourseCerts.caCert }, [.certGen config.deployment [config.domain]])

/-- The tail of `checkPreDeployConfigRequiments` after the IP-derived-domain
defaulting (split out so the intermediate configuration is named): both
certificate lifecycle steps, sizing and director IP overrides, persisted
checkpoint. -/
def preDeployCertsAndSizing (env : Env) (args : DeployArgs) (isDomainUpdated : Bool)
    (config : Config) (metadata : Metadata) : Except GoError Config × List Event :=
  match ensureDirectorCerts env config metadata with
  | (.error e, t) => (.error e, t)
  | (.ok config, t1) =>
    match ensureConcourseCerts env args isDomainUpdated config metadata with
    | (.error e, t) => (.error e, t1 ++ t)
    | (.ok config, t2) =>
      let config := { config with
        concourseWorkerCount := args.workerCount,
        concourseWorkerSize := args.workerSize,
        concourseWebSize := args.webSize,
        directorPublicIP := metadata.directorPublicIP }
      match env.update config with
      | some e => (.error (.external e), t1 ++ t2 ++ [.updateConfig config])
      | none => (.ok config, t1 ++ t2 ++ [.updateConfig config])

/-- `checkPreDeployConfigRequiments` (the source's spelling): IP-derived
domain, both certificate lifecycle steps, sizing and director IP overrides,
then a persisted checkpoint. -/
def checkPreDeployConfigRequiments (env : Env) (args : DeployArgs) (isDomainUpdated : Bool)
    (config : Config) (metadata : Metadata) : Except GoError Config × List Event :=
  preDeployCertsAndSizing env args isDomainUpdated
    (if args.domain = "" then { config with domain := metadata.atcPublicIP } else config) metadata

/-- `applyTerraform`: build the terraform client, apply (non-destructive),
fetch the output and validate it. -/
def applyTerraform (env : Env) (config : Config) : Except GoError Metadata × List Event :=
  match env.terraformFactory with
  | some e => (.error (.external e), [])
  | none =>
    match env.terraformApply with
    | some e => (.error (.external e), [.applyTerraform])
    | none =>
      match env.terraformOutput with
      | .error e => (.error (.external e), [.applyTerraform, .terraformOutput])
      | .ok metadata =>
        match env.assertValid metadata with
        | some e => (.error (.external e), [.applyTerraform, .terraformOutput])
        | none => (.ok metadata, [.applyTerraform, .terraformOutput])

/-- Go's first-error-wins accumulation `if err == nil { err = err1 }`:
keep `a` when it is already an error, otherwise take `b`. -/
def goFirstErr (a b : Option String) : Option String :=
  match a with
  | some e => some e
  | none => b

/-- `deployBosh`: build the bosh client, load prior state and creds blobs
(`return nil` on a load error, exactly as the source does), deploy, store
both returned blobs keeping the first non-nil error among deploy error,
state-store error and creds-store error, then extract the credhub
credentials from the returned creds blob. -/
def deployBosh (env : Env) (config : Config) (metadata : Metadata) (detach : Bool) :
    Except GoError Config × List Event :=
  match env.buildBoshClient with
  | some e => (.error (.external e), [])
  | none =>
    match loadDirectorState env with
    | (.error _, t) => (.ok config, t)
    | (.ok boshStateBytes, t1) =>
      match loadDirectorCreds env with
      | (.error _, t) => (.ok config, t1 ++ t)
      | (.ok boshCredsBytes, t2) =>
        match env.boshDeploy boshStateBytes boshCredsBytes detach with
        | (newState, newCreds, deployErr) =>
          ((match goFirstErr (goFirstErr deployErr (env.storeAsset StateFilename newState))
                (env.storeAsset CredsFilename newCreds) with
            | some e => .error (.external e)
            | none =>
              match env.yamlUnmarshalCredhub newCreds with
              | .error e => .error (.external e)
              | .ok cc =>
                .ok { config with
                  credhubCACert := cc.2,
                  credhubPassword := cc.1,
                  credhubURL := "https://" ++ metadata.atcPublicIP ++ ":8844/",
                  credhubUsername := "credhub-cli" }),
           t1 ++ t2 ++
             [.boshDeploy boshStateBytes boshCredsBytes detach,
              .storeAsset StateFilename newState,
              .storeAsset CredsFilename newCreds])

/-- `deployBoshAndPipeline` (fresh mode): deploy bosh non-detached, then set
the default pipeline without tolerating a fly version mismatch, then write
the success message. -/
def deployBoshAndPipeline (env : Env) (args : DeployArgs) (config : Config)
    (metadata : Metadata) : Except GoError Config × List Event :=
  match deployBosh env config metadata false with
  | (.error e, t) => (.error e, t)
  | (.ok config, t) =>
    match env.setDefaultPipeline args config false with
    | some e => (.error (.external e), t ++ [.setPipeline false])
    | none =>
      match env.writeStdout (deploySuccessMessage config) with
      | some e => (.error (.external e), t ++ [.setPipeline false])
      | none => (.ok config, t ++ [.setPipeline false])

/-- `updateBoshAndPipeline` (self-update mode): require concourse to be
reachable, set the pipeline tolerating a version mismatch, then deploy bosh
detached and report the background upgrade. -/
def updateBoshAndPipeline (env : Env) (args : DeployArgs) (config : Config)
    (metadata : Metadata) : Except GoError Config × List Event :=
  match env.canConnect with
  | .error e => (.error (.external e), [.canConnect])
  | .ok false => (.error .concourseNotRunning, [.canConnect])
  | .ok true =>
    match env.setDefaultPipeline args config true with
    | some e => (.error (.external e), [.canConnect, .setPipeline true])
    | none =>
      match deployBosh env config metadata true with
      | (.error e, t) => (.error e, [.canConnect, .setPipeline true] ++ t)
      | (.ok config, t) =>
        match env.writeStdout "\nUPGRADE RUNNING IN BACKGROUND\n\n" with
        | some e => (.error (.external e), [.canConnect, .setPipeline true] ++ t)
        | none => (.ok config, [.canConnect, .setPipeline true] ++ t)

/-- `loadConfig`: load or create the configuration, announcing reuse of a
previous configuration on stdout. -/
def loadConfig (env : Env) : Except GoError Config × List Event :=
  match env.loadOrCreate with
  | .error e => (.error (.external e), [])
  | .ok (cfg, createdNewConfig) =>
    if !createdNewConfig then
      match env.writeStdout "\nUSING PREVIOUS DEPLOYMENT CONFIG\n" with
      | some e => (.error (.external e), [])
      | none => (.ok cfg, [])
    else (.ok cfg, [])

/-- `Deploy`: the orchestrator.  On success the returned configuration is the
one passed to the final `configClient.Update`. -/
def Deploy (env : Env) (args : DeployArgs) : Except GoError Config × List Event :=
  match loadConfig env with
  | (.error e, t) => (.error e, t)
  | (.ok config, t0) =>
    let isDomainUpdated := args.domain != config.domain
    match checkPreTerraformConfigRequirements env args config with
    | (.error e, t) => (.error e, t0 ++ t)
    | (.ok config, t1) =>
      match applyTerraform env config with
      | (.error e, t) => (.error e, t0 ++ t1 ++ t)
      | (.ok metadata, t2) =>
        match checkPreDeployConfigRequiments env args isDomainUpdated config metadata with
        | (.error e, t) => (.error e, t0 ++ t1 ++ t2 ++ t)
        | (.ok config, t3) =>
          match env.flyFactory with
          | some e => (.error (.external e), t0 ++ t1 ++ t2 ++ t3)
          | none =>
            match (if args.selfUpdate then updateBoshAndPipeline env args config metadata
                   else deployBoshAndPipeline env args config metadata) with
            | (.error e, t) => (.error e, t0 ++ t1 ++ t2 ++ t3 ++ t)
            | (.ok config, t4) =>
              match env.update config with
              | some e => (.error (.external e), t0 ++ t1 ++ t2 ++ t3 ++ t4 ++ [.updateConfig config])
              | none => (.ok config, t0 ++ t1 ++ t2 ++ t3 ++ t4 ++ [.updateConfig config])

/-! ## Event discriminators and ordering -/

/-- Is this event a `boshDeploy` call? -/
def Event.isBoshDeploy : Event → Bool
  | .boshDeploy _ _ _ => true
  | _ => false

/-- Is this event a `setPipeline` call? -/
def Event.isSetPipeline : Event → Bool
  | .setPipeline _ => true
  | _ => false

/-- Is this event a `certGen` call? -/
def Event.isCertGen : Event → Bool
  | .certGen _ _ => true
  | _ => false

/-- Every `p`-event of `t` occurs strictly before every `q`-event of `t`:
the trace splits into a prefix free of `q`-events holding all the
`p`-events and a suffix free of `p`-events. -/
def eventsPhased (p q : Event → Bool) (t : List Event) : Prop :=
  ∃ t1 t2, t = t1 ++ t2 ∧ (∀ e ∈ t1, q e = false) ∧ (∀ e ∈ t2, p e = false)

/-- Is this the region-mismatch error? -/
def GoError.isRegionMismatch : GoError → Bool
  | .regionMismatch _ _ => true
  | _ => false

/-- The result, when an error, is not the region-mismatch error. -/
def errNotRegion {a : Type} (r : Except GoError a) : Prop :=
  ∀ e, r = .error e → GoError.isRegionMismatch e = false

/-! ## Concrete example data -/

/-- A concrete stored configuration of an existing deployment. -/
def exConfig : Config where
  project := "proj"
  deployment := "d"
  region := "eu-west-1"
  domain := "ci.example.com"
  sourceAccessIP := "9.9.9.9"
  hostedZoneID := "Z1"
  hostedZoneRecordPrefix := "ci"
  directorPublicIP := "5.6.7.8"
  concourseWorkerCount := 1
  concourseWorkerSize := "m"
  concourseWebSize := "s"
  rdsInstanceClass := "db.t2.small"
  concourseUsername := "u"
  concoursePassword := "p"
  directorCACert := "DCA"
  directorCert := "DCERT"
  directorKey := "DKEY"
  concourseCert := "CCERT"
  concourseKey := "CKEY"
  concourseCACert := "CCA"
  concourseUserProvidedCert := false
  credhubCACert := ""
  credhubPassword := ""
  credhubURL := ""
  credhubUsername := ""

/-- A stored configuration whose application bundle is user-provided. -/
def exCfgUser : Config :=
  { exConfig with concourseUserProvidedCert := true, concourseCert := "OLD", concourseKey := "OLDKEY" }

/-- Concrete terraform output. -/
def exMetadata : Metadata where
  atcPublicIP := "1.2.3.4"
  directorPublicIP := "5.6.7.8"

/-- Concrete deploy arguments for a fresh-mode run with a domain. -/
def exArgs : DeployArgs where
  awsRegion := "eu-west-1"
  domain := "ci.example.com"
  tlsCert := ""
  tlsKey := ""
  workerCount := 1
  workerSize := "m"
  webSize := "s"
  dbSize := ""
  dbSizeIsSet := false
  selfUpdate := false

/-- A concrete environment in which every collaborator succeeds; every
certificate parses with a `NotAfter` far in the future. -/
def exEnv : Env where
  loadOrCreate := .ok (exConfig, false)
  update := fun _ => none
  hasAsset := fun _ => .ok false
  loadAsset := fun _ => .ok ""
  storeAsset := fun _ _ => none
  findUserIP := .ok "9.9.9.9"
  findHostedZone := fun _ => .ok ("example.com", "Z1")
  terraformFactory := none
  terraformApply := none
  terraformOutput := .ok exMetadata
  assertValid := fun _ => none
  flyFactory := none
  canConnect := .ok true
  setDefaultPipeline := fun _ _ _ => none
  certGenerator := fun _ _ => .ok ⟨"GCA", "GCERT", "GKEY"⟩
  buildBoshClient := none
  boshDeploy := fun _ _ _ => ("newstate", "newcreds", none)
  yamlUnmarshalCredhub := fun _ => .ok ("chpw", "chca")
  writeStdout := fun _ => none
  writeStderr := fun _ => none
  dbSizes := fun _ => "db.t2.small"
  pemDecode := fun c => some c
  parseCertificate := fun _ => some 10000000000000000
  now := 0

/-- The first non-`none` element of a list of optional errors (the
specification's notion of "the first non-nil error among ..."). -/
def firstSome : List (Option String) → Option String
  | [] => none
  | some e :: _ => some e
  | none :: rest => firstSome rest

/-- `exEnv` with a failing asset-store probe: loading prior deployer
state/creds blobs errors. -/
def exEnvLoadErr : Env := { exEnv with hasAsset := fun _ => .error "asset store corrupt" }

/-- `exEnv` where the bosh deploy call fails and storing the state blob also
fails, while storing the creds blob succeeds. -/
def exEnvDeployFail : Env :=
  { exEnv with
    boshDeploy := fun _ _ _ => ("ns", "nc", some "bosh deploy failed"),
    storeAsset := fun n _ => if n = StateFilename then some "state store failed" else none }

/-- `exArgs` in self-update mode. -/
def exArgsSelf : DeployArgs := { exArgs with selfUpdate := true }

/-- `exEnv` with an unreachable concourse (the connectivity probe reports
false). -/
def exEnvDown : Env := { exEnv with canConnect := .ok false }

/-- `exEnv` whose stored configuration lives in a different region than the
requested one. -/
def exEnvRegion : Env :=
  { exEnv with loadOrCreate := .ok ({ exConfig with region := "us-east-1" }, false) }

/-- A freshly created (empty) configuration, as on a first-ever deploy. -/
def exCfgEmpty : Config where
  project := "proj"
  deployment := "d"
  region := ""
  domain := ""
  sourceAccessIP := ""
  hostedZoneID := ""
  hostedZoneRecordPrefix := ""
  directorPublicIP := ""
  concourseWorkerCount := 0
  concourseWorkerSize := ""
  concourseWebSize := ""
  rdsInstanceClass := ""
  concourseUsername := "u"
  concoursePassword := "p"
  directorCACert := ""
  directorCert := ""
  directorKey := ""
  concourseCert := ""
  concourseKey := ""
  concourseCACert := ""
  concourseUserProvidedCert := false
  credhubCACert := ""
  credhubPassword := ""
  credhubURL := ""
  credhubUsername := ""

/-- `exArgs` without a domain argument (IP-based deployment). -/
def exArgsNoDomain : DeployArgs := { exArgs with domain := "" }

/-- A first-ever deploy: the store creates a fresh configuration. -/
def exEnvFirst : Env := { exEnv with loadOrCreate := .ok (exCfgEmpty, true) }

/-- The configuration persisted by the first no-domain deploy under
`exEnvFirst` (`Deploy exEnvFirst exArgsNoDomain` returns it): the domain is
the ATC public IP. -/
def exCfgAfterFirst : Config :=
  { exCfgEmpty with
    region := "eu-west-1", domain := "1.2.3.4", sourceAccessIP := "9.9.9.9",
    concourseWorkerCount := 1, concourseWorkerSize := "m", concourseWebSize := "s",
    directorPublicIP := "5.6.7.8",
    directorCACert := "GCA", directorCert := "GCERT", directorKey := "GKEY",
    concourseCert := "GCERT", concourseKey := "GKEY", concourseCACert := "GCA",
    credhubCACert := "chca", credhubPassword := "chpw",
    credhubURL := "https://1.2.3.4:8844/", credhubUsername := "credhub-cli" }

/-- The second no-domain deploy: the store now returns the configuration the
first run persisted. -/
def exEnvSecond : Env := { exEnv with loadOrCreate := .ok (exCfgAfterFirst, false) }

/-! ## Trace shape lemmas -/

theorem loadConfig_trace (env : Env) : (loadConfig env).2 = [] := by
  unfold loadConfig
  split <;> (try split) <;> (try split) <;> rfl


theorem loadDirectorState_all (env : Env) (p : Event → Bool)
    (h1 : ∀ n, p (.hasAsset n) = true) (h2 : ∀ n, p (.loadAsset n) = true) :
    (loadDirectorState env).2.all p = true := by
  unfold loadDirectorState
  split <;> (try split) <;> simp [h1, h2]

theorem loadDirectorCreds_all (env : Env) (p : Event → Bool)
    (h1 : ∀ n, p (.hasAsset n) = true) (h2 : ∀ n, p (.loadAsset n) = true) :
    (loadDirectorCreds env).2.all p = true := by
  unfold loadDirectorCreds
  split <;> (try split) <;> simp [h1, h2]

theorem setUserIP_all (env : Env) (config : Config) (p : Event → Bool)
    (h1 : p .findUserIP = true) (h2 : ∀ c, p (.updateConfig c) = true) :
    (setUserIP env config).2.all p = true := by
  unfold setUserIP
  split <;> (try dsimp only) <;> (try split) <;> (try dsimp only) <;> (try split) <;> (try dsimp only) <;> (try split) <;> (try dsimp only) <;> (try split) <;> simp [h1, h2]

theorem setHostedZone_all (env : Env) (args : DeployArgs) (config : Config) (p : Event → Bool)
    (h1 : ∀ d, p (.findHostedZone d) = true) (h2 : ∀ c, p (.updateConfig c) = true) :
    (setHostedZone env args config).2.all p = true := by
  unfold setHostedZone
  split <;> (try dsimp only) <;> (try split) <;> (try dsimp only) <;> (try split) <;> (try dsimp only) <;> (try split) <;> (try dsimp only) <;> (try split) <;> simp [h1, h2]

theorem preTerraformIPAndZone_all (env : Env) (args : DeployArgs) (conf : Config)
    (p : Event → Bool)
    (h1 : p .findUserIP = true) (h2 : ∀ c, p (.updateConfig c) = true)
    (h3 : ∀ d, p (.findHostedZone d) = true) :
    (preTerraformIPAndZone env args conf).2.all p = true := by
  unfold preTerraformIPAndZone
  split
  next e t heq =>
    split at heq
    · simp at heq
    · have h := setUserIP_all env conf p h1 h2
      rw [heq] at h
      exact h
  next conf3 t1 heq =>
    have hu : t1.all p = true := by
      split at heq
      · simp only [Prod.mk.injEq] at heq
        rw [← heq.2]
        rfl
      · have h0 := setUserIP_all env conf p h1 h2
        rw [heq] at h0
        exact h0
    split
    next e t heq2 =>
      have h := setHostedZone_all env args conf3 p h3 h2
      rw [heq2] at h
      simp_all [List.all_append]
    next conf4 t2 heq2 =>
      have h := setHostedZone_all env args conf3 p h3 h2
      rw [heq2] at h
      simp_all [List.all_append]

theorem checkPreTerraform_all (env : Env) (args : DeployArgs) (conf : Config) (p : Event → Bool)
    (h1 : p .findUserIP = true) (h2 : ∀ c, p (.updateConfig c) = true)
    (h3 : ∀ d, p (.findHostedZone d) = true) :
    (checkPreTerraformConfigRequirements env args conf).2.all p = true := by
  unfold checkPreTerraformConfigRequirements
  dsimp only
  split
  · simp
  · exact preTerraformIPAndZone_all env args _ p h1 h2 h3

theorem applyTerraform_all (env : Env) (config : Config) (p : Event → Bool)
    (h1 : p .applyTerraform = true) (h2 : p .terraformOutput = true) :
    (applyTerraform env config).2.all p = true := by
  unfold applyTerraform
  split <;> (try dsimp only) <;> (try split) <;> (try dsimp only) <;> (try split) <;> (try dsimp only) <;> (try split) <;> (try dsimp only) <;> (try split) <;> simp [h1, h2]

theorem ensureDirectorCerts_all (env : Env) (config : Config) (metadata : Metadata)
    (p : Event → Bool) (h1 : ∀ s l, p (.certGen s l) = true) :
    (ensureDirectorCerts env config metadata).2.all p = true := by
  unfold ensureDirectorCerts
  split <;> (try dsimp only) <;> (try split) <;> (try dsimp only) <;> (try split) <;> (try dsimp only) <;> (try split) <;> (try dsimp only) <;> (try split) <;> simp [h1]

theorem ensureConcourseCerts_all (env : Env) (args : DeployArgs) (domainUpdated : Bool)
    (config : Config) (metadata : Metadata)
    (p : Event → Bool) (h1 : ∀ s l, p (.certGen s l) = true) :
    (ensureConcourseCerts env args domainUpdated config metadata).2.all p = true := by
  unfold ensureConcourseCerts
  split <;> (try dsimp only) <;> (try split) <;> (try dsimp only) <;> (try split) <;> (try dsimp only) <;> (try split) <;> (try dsimp only) <;> (try split) <;> simp [h1]

theorem preDeployCertsAndSizing_all (env : Env) (args : DeployArgs) (isDomainUpdated : Bool)
    (config : Config) (metadata : Metadata) (p : Event → Bool)
    (h1 : ∀ s l, p (.certGen s l) = true) (h2 : ∀ c, p (.updateConfig c) = true) :
    (preDeployCertsAndSizing env args isDomainUpdated config metadata).2.all p = true := by
  unfold preDeployCertsAndSizing
  split
  next e t heq =>
    have h := ensureDirectorCerts_all env config metadata p h1
    rw [heq] at h
    exact h
  next c1 t1 heq =>
    have ha := ensureDirectorCerts_all env config metadata p h1
    rw [heq] at ha
    split
    next e t heq2 =>
      have hb := ensureConcourseCerts_all env args isDomainUpdated c1 metadata p h1
      rw [heq2] at hb
      simp_all [List.all_append]
    next c2 t2 heq2 =>
      have hb := ensureConcourseCerts_all env args isDomainUpdated c1 metadata p h1
      rw [heq2] at hb
      dsimp only
      split <;> simp_all [List.all_append, h2]

theorem checkPreDeploy_all (env : Env) (args : DeployArgs) (isDomainUpdated : Bool)
    (config : Config) (metadata : Metadata) (p : Event → Bool)
    (h1 : ∀ s l, p (.certGen s l) = true) (h2 : ∀ c, p (.updateConfig c) = true) :
    (checkPreDeployConfigRequiments env args isDomainUpdated config metadata).2.all p = true := by
  unfold checkPreDeployConfigRequiments
  exact preDeployCertsAndSizing_all env args isDomainUpdated _ metadata p h1 h2

theorem deployBosh_all (env : Env) (config : Config) (metadata : Metadata) (detach : Bool)
    (p : Event → Bool)
    (h1 : ∀ n, p (.hasAsset n) = true) (h2 : ∀ n, p (.loadAsset n) = true)
    (h3 : ∀ s c, p (.boshDeploy s c detach) = true)
    (h4 : ∀ n b, p (.storeAsset n b) = true) :
    (deployBosh env config metadata detach).2.all p = true := by
  unfold deployBosh
  split
  · simp
  · split
    next t heq =>
      have h := loadDirectorState_all env p h1 h2
      rw [heq] at h
      exact h
    next s t1 heq1 =>
      split
      next t heq2 =>
        have ha := loadDirectorState_all env p h1 h2
        rw [heq1] at ha
        have hb := loadDirectorCreds_all env p h1 h2
        rw [heq2] at hb
        simp_all [List.all_append]
      next c t2 heq2 =>
        have ha := loadDirectorState_all env p h1 h2
        rw [heq1] at ha
        have hb := loadDirectorCreds_all env p h1 h2
        rw [heq2] at hb
        split
        next newState newCreds deployErr heq3 =>
          simp_all [List.all_append, h3, h4]

theorem deployBoshAndPipeline_all (env : Env) (args : DeployArgs) (config : Config)
    (metadata : Metadata) (p : Event → Bool)
    (h1 : ∀ n, p (.hasAsset n) = true) (h2 : ∀ n, p (.loadAsset n) = true)
    (h3 : ∀ s c, p (.boshDeploy s c false) = true)
    (h4 : ∀ n b, p (.storeAsset n b) = true)
    (h5 : p (.setPipeline false) = true) :
    (deployBoshAndPipeline env args config metadata).2.all p = true := by
  unfold deployBoshAndPipeline
  split
  next e t heq =>
    have h := deployBosh_all env config metadata false p h1 h2 h3 h4
    rw [heq] at h
    exact h
  next c t heq =>
    have h := deployBosh_all env config metadata false p h1 h2 h3 h4
    rw [heq] at h
    split <;> (try split) <;> simp_all [List.all_append, h5]

theorem updateBoshAndPipeline_all (env : Env) (args : DeployArgs) (config : Config)
    (metadata : Metadata) (p : Event → Bool)
    (h1 : ∀ n, p (.hasAsset n) = true) (h2 : ∀ n, p (.loadAsset n) = true)
    (h3 : ∀ s c, p (.boshDeploy s c true) = true)
    (h4 : ∀ n b, p (.storeAsset n b) = true)
    (h5 : p .canConnect = true) (h6 : p (.setPipeline true) = true) :
    (updateBoshAndPipeline env args config metadata).2.all p = true := by
  unfold updateBoshAndPipeline
  split
  · simp [h5]
  · simp [h5]
  · split
    · simp [h5, h6]
    · split
      next e t heq =>
        have h := deployBosh_all env config metadata true p h1 h2 h3 h4
        rw [heq] at h
        simp_all [List.all_append]
      next c t heq =>
        have h := deployBosh_all env config metadata true p h1 h2 h3 h4
        rw [heq] at h
        split <;> simp_all [List.all_append]

/-! ## Certificate lifecycle characterizations -/

/-- When the stored director CA certificate is non-empty the director
lifecycle step is the identity and makes no external call. -/
theorem ensureDirectorCerts_keep (env : Env) (config : Config) (metadata : Metadata)
    (h : config.directorCACert ≠ "") :
    ensureDirectorCerts env config metadata = (.ok config, []) := by
  unfold ensureDirectorCerts
  rw [if_pos h]

/-- When no user certificate is supplied, the stored certificate is
non-empty, the domain is unchanged and more than 28 days of validity remain,
the application lifecycle step is the identity and makes no external call. -/
theorem ensureConcourseCerts_keep (env : Env) (args : DeployArgs) (domainUpdated : Bool)
    (config : Config) (metadata : Metadata)
    (h1 : args.tlsCert = "") (h2 : config.concourseCert ≠ "")
    (h3 : domainUpdated = false)
    (h4 : timeTillExpiry env config.concourseCert > 28 * 24 * hourNS) :
    ensureConcourseCerts env args domainUpdated config metadata = (.ok config, []) := by
  unfold ensureConcourseCerts
  rw [if_neg (by simp [h1]), if_pos ⟨h2, h3, h4⟩]

/-- When a user certificate/key pair is supplied it is adopted verbatim and
the user-provided flag is set; no external call is made. -/
theorem ensureConcourseCerts_user (env : Env) (args : DeployArgs) (domainUpdated : Bool)
    (config : Config) (metadata : Metadata) (h : args.tlsCert ≠ "") :
    ensureConcourseCerts env args domainUpdated config metadata =
      (.ok { config with
        concourseCert := args.tlsCert,
        concourseKey := args.tlsKey,
        concourseUserProvidedCert := true }, []) := by
  unfold ensureConcourseCerts
  rw [if_pos h]

/-- When no user certificate is supplied and the keep condition fails, the
certificate generator is called for the current domain and, on success, its
output replaces certificate, key and CA certificate. -/
theorem ensureConcourseCerts_regen (env : Env) (args : DeployArgs) (domainUpdated : Bool)
    (config : Config) (metadata : Metadata)
    (h1 : args.tlsCert = "")
    (h2 : ¬(config.concourseCert ≠ "" ∧ domainUpdated = false ∧
        timeTillExpiry env config.concourseCert > 28 * 24 * hourNS)) :
    (ensureConcourseCerts env args domainUpdated config metadata).2 =
      [.certGen config.deployment [config.domain]] ∧
    ∀ b, env.certGenerator config.deployment [config.domain] = .ok b →
      (ensureConcourseCerts env args domainUpdated config metadata).1 =
        .ok { config with
          concourseCert := b.cert,
          concourseKey := b.key,
          concourseCACert := b.caCert } := by
  unfold ensureConcourseCerts
  rw [if_neg (by simp [h1]), if_neg h2]
  constructor
  · split <;> rfl
  · intro b hb
    rw [hb]

/-! ## Claim theorems -/

/-- **C10**: the certificate-expiry computation is total: a PEM-decode
failure or a certificate-parse failure yields a zero remaining duration,
and a well-formed certificate yields its validity end-time minus the
current time. -/
theorem timeTillExpiry_total_spec (env : Env) (cert : String) :
    (env.pemDecode cert = none → timeTillExpiry env cert = 0) ∧
    (∀ b, env.pemDecode cert = some b → env.parseCertificate b = none →
      timeTillExpiry env cert = 0) ∧
    (∀ b n, env.pemDecode cert = some b → env.parseCertificate b = some n →
      timeTillExpiry env cert = n - env.now) := by
  refine ⟨?_, ?_, ?_⟩
  · intro h
    unfold timeTillExpiry
    rw [h]
  · intro b h1 h2
    unfold timeTillExpiry
    rw [h1]
    dsimp only
    rw [h2]
  · intro b n h1 h2
    unfold timeTillExpiry
    rw [h1]
    dsimp only
    rw [h2]

/-- Witness for C10: a malformed certificate gives zero remaining duration,
a well-formed one gives its end-time minus now. -/
theorem timeTillExpiry_total_spec_witness :
    timeTillExpiry { exEnv with pemDecode := fun _ => none } "garbage" = 0 ∧
    timeTillExpiry exEnv "CERT" = 10000000000000000 := by
  constructor
  · exact (timeTillExpiry_total_spec { exEnv with pemDecode := fun _ => none } "garbage").1 rfl
  · have h := (timeTillExpiry_total_spec exEnv "CERT").2.2 "CERT" 10000000000000000 rfl rfl
    rw [h]
    decide

/-- **C6**: while the stored director CA certificate is non-empty the
director certificate lifecycle step is the identity and never calls the
certificate generator, so generation happens at most once across runs. -/
theorem ensureDirectorCerts_at_most_once (env : Env) (config : Config) (metadata : Metadata)
    (h : config.directorCACert ≠ "") :
    ensureDirectorCerts env config metadata = (.ok config, []) ∧
    ∀ s l, Event.certGen s l ∉ (ensureDirectorCerts env config metadata).2 := by
  have hk := ensureDirectorCerts_keep env config metadata h
  refine ⟨hk, ?_⟩
  intro s l hml
  rw [hk] at hml
  simp at hml

/-- Witness for C6 at a concrete stored configuration. -/
theorem ensureDirectorCerts_at_most_once_witness :
    ensureDirectorCerts exEnv exConfig exMetadata = (.ok exConfig, []) :=
  (ensureDirectorCerts_at_most_once exEnv exConfig exMetadata (by decide)).1

/-- **C7**: with no user certificate supplied, the application bundle is kept
unchanged (no generator call) exactly when the stored certificate is
non-empty, the domain is unchanged and more than 28 days remain; in every
other case the generator is called for the current domain and, on success,
its output replaces the bundle. -/
theorem ensureConcourseCerts_renewal_policy (env : Env) (args : DeployArgs)
    (domainUpdated : Bool) (config : Config) (metadata : Metadata)
    (h : args.tlsCert = "") :
    ((config.concourseCert ≠ "" ∧ domainUpdated = false ∧
        timeTillExpiry env config.concourseCert > 28 * 24 * hourNS) →
      ensureConcourseCerts env args domainUpdated config metadata = (.ok config, [])) ∧
    (¬(config.concourseCert ≠ "" ∧ domainUpdated = false ∧
        timeTillExpiry env config.concourseCert > 28 * 24 * hourNS) →
      (ensureConcourseCerts env args domainUpdated config metadata).2 =
        [.certGen config.deployment [config.domain]] ∧
      ∀ b, env.certGenerator config.deployment [config.domain] = .ok b →
        (ensureConcourseCerts env args domainUpdated config metadata).1 =
          .ok { config with
            concourseCert := b.cert,
            concourseKey := b.key,
            concourseCACert := b.caCert }) := by
  constructor
  · intro hk
    exact ensureConcourseCerts_keep env args domainUpdated config metadata h hk.1 hk.2.1 hk.2.2
  · intro hn
    exact ensureConcourseCerts_regen env args domainUpdated config metadata h hn

/-- Witness for C7: a fresh-enough certificate with an unchanged domain is
kept; a changed domain triggers exactly one generator call. -/
theorem ensureConcourseCerts_renewal_policy_witness :
    ensureConcourseCerts exEnv exArgs false exConfig exMetadata = (.ok exConfig, []) ∧
    (ensureConcourseCerts exEnv exArgs true exConfig exMetadata).2 =
      [.certGen "d" ["ci.example.com"]] := by
  constructor
  · exact (ensureConcourseCerts_renewal_policy exEnv exArgs false exConfig exMetadata rfl).1
      (by decide)
  · exact ((ensureConcourseCerts_renewal_policy exEnv exArgs true exConfig exMetadata rfl).2
      (by decide)).1

/-- **C1 counterexample**: a stored application bundle marked user-provided,
with no TLS pair supplied this run and ample remaining validity, is
nevertheless overwritten by the generator's output when the domain changed
this run: the lifecycle manager does not protect user-supplied bundles. -/
theorem userProvidedCert_overwritten_on_domain_change :
    exArgs.tlsCert = "" ∧
    exCfgUser.concourseUserProvidedCert = true ∧
    timeTillExpiry exEnv exCfgUser.concourseCert > 28 * 24 * hourNS ∧
    (ensureConcourseCerts exEnv exArgs true exCfgUser exMetadata).1 =
      .ok { exCfgUser with
        concourseCert := "GCERT", concourseKey := "GKEY", concourseCACert := "GCA" } ∧
    (ensureConcourseCerts exEnv exArgs true exCfgUser exMetadata).2 =
      [.certGen "d" ["ci.example.com"]] ∧
    "GCERT" ≠ exCfgUser.concourseCert := by
  refine ⟨rfl, rfl, by decide, by decide, by decide, by decide⟩

/-- **C1 amended**: a user-provided bundle with no new TLS pair supplied is
left unchanged provided the stored certificate is non-empty, the domain did
not change this run and more than 28 days of validity remain. -/
theorem userProvidedCert_kept_when_unchanged_domain_and_valid (env : Env) (args : DeployArgs)
    (domainUpdated : Bool) (config : Config) (metadata : Metadata)
    (h1 : args.tlsCert = "")
    (h2 : config.concourseUserProvidedCert = true)
    (h3 : config.concourseCert ≠ "")
    (h4 : domainUpdated = false)
    (h5 : timeTillExpiry env config.concourseCert > 28 * 24 * hourNS) :
    ensureConcourseCerts env args domainUpdated config metadata = (.ok config, []) :=
  ensureConcourseCerts_keep env args domainUpdated config metadata h1 h3 h4 h5

/-- Witness for the amended C1 at a concrete user-provided configuration. -/
theorem userProvidedCert_kept_when_unchanged_domain_and_valid_witness :
    ensureConcourseCerts exEnv exArgs false exCfgUser exMetadata = (.ok exCfgUser, []) :=
  userProvidedCert_kept_when_unchanged_domain_and_valid exEnv exArgs false exCfgUser exMetadata
    rfl (by decide) (by decide) rfl (by decide)

/-- **C2 counterexample**: when loading the stored deployer state blob
errors, `deployBosh` returns success immediately: the configuration-management
deploy call is *not* invoked (no empty-blob deploy happens) and no error is
reported. -/
theorem deployBosh_skips_deploy_on_state_load_error :
    exEnvLoadErr.hasAsset StateFilename = .error "asset store corrupt" ∧
    deployBosh exEnvLoadErr exConfig exMetadata false =
      (.ok exConfig, [.hasAsset StateFilename]) ∧
    ∀ s c d, Event.boshDeploy s c d ∉ (deployBosh exEnvLoadErr exConfig exMetadata false).2 := by
  refine ⟨rfl, by decide, ?_⟩
  intro s c d
  have h2 : (deployBosh exEnvLoadErr exConfig exMetadata false).2 = [Event.hasAsset StateFilename] := by
    decide
  rw [h2]
  simp

/-- **C2 amended**: a load error on the stored deployer state or credentials
blob is not propagated, but instead of deploying with empty blobs the run's
deploy step returns success immediately, without invoking the
configuration-management deploy call and without touching the
configuration. -/
theorem deployBosh_load_error_returns_success_without_deploy (env : Env) (config : Config)
    (metadata : Metadata) (detach : Bool) (hb : env.buildBoshClient = none) :
    ((∃ e, (loadDirectorState env).1 = .error e) →
      (deployBosh env config metadata detach).1 = .ok config ∧
      ∀ s c d, Event.boshDeploy s c d ∉ (deployBosh env config metadata detach).2) ∧
    (∀ s, (loadDirectorState env).1 = .ok s →
      (∃ e, (loadDirectorCreds env).1 = .error e) →
      (deployBosh env config metadata detach).1 = .ok config ∧
      ∀ s2 c d, Event.boshDeploy s2 c d ∉ (deployBosh env config metadata detach).2) := by
  have hnb : ∀ t : List Event,
      t.all (fun e => !e.isBoshDeploy) = true → ∀ s c d, Event.boshDeploy s c d ∉ t := by
    intro t ht s c d hm
    have := List.all_eq_true.mp ht _ hm
    simp [Event.isBoshDeploy] at this
  constructor
  · rintro ⟨e, he⟩
    unfold deployBosh
    rw [hb]
    rcases hls : loadDirectorState env with ⟨r1, t1⟩
    rw [hls] at he
    simp only at he
    subst he
    constructor
    · rfl
    · have ht := loadDirectorState_all env (fun e => !e.isBoshDeploy)
        (fun n => rfl) (fun n => rfl)
      rw [hls] at ht
      exact hnb t1 ht
  · rintro s hs ⟨e, he⟩
    unfold deployBosh
    rw [hb]
    rcases hls : loadDirectorState env with ⟨r1, t1⟩
    rw [hls] at hs
    simp only at hs
    subst hs
    rcases hlc : loadDirectorCreds env with ⟨r2, t2⟩
    rw [hlc] at he
    simp only at he
    subst he
    constructor
    · rfl
    · have ht1 := loadDirectorState_all env (fun e => !e.isBoshDeploy)
        (fun n => rfl) (fun n => rfl)
      rw [hls] at ht1
      have ht2 := loadDirectorCreds_all env (fun e => !e.isBoshDeploy)
        (fun n => rfl) (fun n => rfl)
      rw [hlc] at ht2
      refine hnb (t1 ++ t2) ?_
      simp_all [List.all_append]

/-- Witness for the amended C2 at a concrete failing asset store. -/
theorem deployBosh_load_error_returns_success_without_deploy_witness :
    (deployBosh exEnvLoadErr exConfig exMetadata false).1 = .ok exConfig :=
  ((deployBosh_load_error_returns_success_without_deploy exEnvLoadErr exConfig exMetadata false
      rfl).1 ⟨.external "asset store corrupt", by decide⟩).1

/-- **C5**: once both blobs loaded, the two `StoreAsset` calls for the
returned state and creds blobs are always attempted (also when the deploy
call or the state store failed), and the first non-nil error among the
deploy error, the state-persist error and the creds-persist error is the
error `deployBosh` returns. -/
theorem deployBosh_best_effort_persistence (env : Env) (config : Config) (metadata : Metadata)
    (detach : Bool) (s c : String) (t1 t2 : List Event)
    (hb : env.buildBoshClient = none)
    (hs : loadDirectorState env = (.ok s, t1))
    (hc : loadDirectorCreds env = (.ok c, t2)) :
    Event.storeAsset StateFilename (env.boshDeploy s c detach).1 ∈
      (deployBosh env config metadata detach).2 ∧
    Event.storeAsset CredsFilename (env.boshDeploy s c detach).2.1 ∈
      (deployBosh env config metadata detach).2 ∧
    ∀ e, firstSome [(env.boshDeploy s c detach).2.2,
           env.storeAsset StateFilename (env.boshDeploy s c detach).1,
           env.storeAsset CredsFilename (env.boshDeploy s c detach).2.1] = some e →
      (deployBosh env config metadata detach).1 = .error (.external e) := by
  unfold deployBosh
  rw [hb, hs, hc]
  rcases hbd : env.boshDeploy s c detach with ⟨ns, nc, de⟩
  dsimp only
  simp only [hbd]
  refine ⟨by simp, by simp, ?_⟩
  intro e he
  rcases de with _ | de
  · rcases he1 : env.storeAsset StateFilename ns with _ | e1
    · rcases he2 : env.storeAsset CredsFilename nc with _ | e2
      · simp [firstSome, he1, he2] at he
      · simp [firstSome, he1, he2] at he
        subst he
        simp [goFirstErr, he1, he2]
    · simp [firstSome, he1] at he
      subst he
      simp [goFirstErr, he1]
  · simp [firstSome] at he
    subst he
    simp [goFirstErr]

/-- Witness for C5: a failing deploy call with a failing state store still
records both store attempts, and the deploy error wins. -/
theorem deployBosh_best_effort_persistence_witness :
    Event.storeAsset StateFilename "ns" ∈ (deployBosh exEnvDeployFail exConfig exMetadata false).2 ∧
    Event.storeAsset CredsFilename "nc" ∈ (deployBosh exEnvDeployFail exConfig exMetadata false).2 ∧
    (deployBosh exEnvDeployFail exConfig exMetadata false).1 =
      .error (.external "bosh deploy failed") := by
  have h := deployBosh_best_effort_persistence exEnvDeployFail exConfig exMetadata false "" ""
    [Event.hasAsset StateFilename] [Event.hasAsset CredsFilename] rfl (by decide) (by decide)
  exact ⟨h.1, h.2.1, h.2.2 "bosh deploy failed" (by decide)⟩

/-- From an `all`-fact with a negated predicate, pointwise falseness. -/
theorem all_not_imp (p : Event → Bool) (t : List Event)
    (h : t.all (fun e => !p e) = true) : ∀ e ∈ t, p e = false := by
  intro e he
  have := List.all_eq_true.mp h e he
  simpa using this

/-- The trace of self-update mode is `[canConnect]`, `[canConnect,
setPipeline true]`, or those two events followed by the bosh-deploy step's
trace. -/
theorem updateBoshAndPipeline_trace_shape (env : Env) (args : DeployArgs) (config : Config)
    (metadata : Metadata) :
    (updateBoshAndPipeline env args config metadata).2 = [.canConnect] ∨
    (updateBoshAndPipeline env args config metadata).2 = [.canConnect, .setPipeline true] ∨
    (updateBoshAndPipeline env args config metadata).2 =
      [.canConnect, .setPipeline true] ++ (deployBosh env config metadata true).2 := by
  unfold updateBoshAndPipeline
  rcases henv : env.canConnect with e | b
  · left
    rfl
  · cases b
    · left
      rfl
    · rcases hsp : env.setDefaultPipeline args config true with _ | e2
      · rcases hdb : deployBosh env config metadata true with ⟨rb, tb⟩
        rcases rb with e3 | c3
        · right; right; rfl
        · rcases hws : env.writeStdout "\nUPGRADE RUNNING IN BACKGROUND\n\n" with _ | e4 <;>
            (right; right; rfl)
      · right
        left
        rfl

/-- In fresh mode the trace is the bosh-deploy step's trace, followed by
`setPipeline false` exactly when that step succeeded. -/
theorem deployBoshAndPipeline_trace_shape (env : Env) (args : DeployArgs) (config : Config)
    (metadata : Metadata) :
    ((deployBoshAndPipeline env args config metadata).2 = (deployBosh env config metadata false).2 ∧
      ∃ e, (deployBosh env config metadata false).1 = .error e) ∨
    ((deployBoshAndPipeline env args config metadata).2 =
        (deployBosh env config metadata false).2 ++ [.setPipeline false] ∧
      ∃ c2, (deployBosh env config metadata false).1 = .ok c2) := by
  unfold deployBoshAndPipeline
  rcases hdb : deployBosh env config metadata false with ⟨rb, tb⟩
  rcases rb with e | c
  · left
    exact ⟨rfl, e, rfl⟩
  · right
    refine ⟨?_, c, rfl⟩
    dsimp only
    rcases hsp : env.setDefaultPipeline args c false with _ | e2
    · rcases hws : env.writeStdout (deploySuccessMessage c) with _ | e4 <;> rfl
    · rfl

/-- **C3**: when the stored region is non-empty and differs from the
requested one, `Deploy` fails with the region-mismatch error naming both
regions, makes no external call at all — in particular terraform apply is
never invoked and the stored configuration is never updated — and the error
message names both regions. -/
theorem regionMismatch_fails_before_terraform (env : Env) (args : DeployArgs) (cfg : Config)
    (h0 : (loadConfig env).1 = .ok cfg)
    (h1 : cfg.region ≠ "") (h2 : cfg.region ≠ args.awsRegion) :
    (Deploy env args).1 = .error (.regionMismatch cfg.region args.awsRegion) ∧
    (Deploy env args).2 = [] ∧
    Event.applyTerraform ∉ (Deploy env args).2 ∧
    (∀ c, Event.updateConfig c ∉ (Deploy env args).2) ∧
    GoError.message (.regionMismatch cfg.region args.awsRegion) =
      "found previous deployment in " ++ cfg.region ++ ". Refusing to deploy to " ++
        args.awsRegion ++ " as changing regions for existing deployments is not supported" := by
  have htr : checkPreTerraformConfigRequirements env args cfg =
      (.error (.regionMismatch cfg.region args.awsRegion), []) := by
    unfold checkPreTerraformConfigRequirements
    dsimp only
    rw [if_pos ⟨h1, h2⟩]
  have hD : Deploy env args = (.error (.regionMismatch cfg.region args.awsRegion), []) := by
    unfold Deploy
    rcases hlc : loadConfig env with ⟨r0, t0⟩
    have ht0 : t0 = [] := by
      have h := loadConfig_trace env
      rw [hlc] at h
      exact h
    rw [hlc] at h0
    simp only at h0
    subst h0
    subst ht0
    dsimp only
    rw [htr]
    rfl
  rw [hD]
  exact ⟨rfl, rfl, by simp, by simp, rfl⟩

/-- Witness for C3 at a concrete store holding a `us-east-1` deployment
while `eu-west-1` is requested. -/
theorem regionMismatch_fails_before_terraform_witness :
    (Deploy exEnvRegion exArgs).1 = .error (.regionMismatch "us-east-1" "eu-west-1") ∧
    (Deploy exEnvRegion exArgs).2 = [] := by
  have h := regionMismatch_fails_before_terraform exEnvRegion exArgs
    { exConfig with region := "us-east-1" } (by decide) (by decide) (by decide)
  exact ⟨h.1, h.2.1⟩

/-- **C4**: ordering of the pipeline-set call relative to the bosh deploy
call.  Self-update mode: every deploy call is detached, every pipeline-set
tolerates a version mismatch, no deploy call precedes a pipeline-set, and if
the deploy call happens the pipeline was set (hence set before it).  Fresh
mode: every deploy call is non-detached, every pipeline-set is strict, no
pipeline-set precedes a deploy call, and the pipeline is set only once the
bosh deploy step has returned successfully. -/
theorem pipeline_deploy_ordering_by_mode (env : Env) (args : DeployArgs) (config : Config)
    (metadata : Metadata) :
    (∀ s c d, Event.boshDeploy s c d ∈ (updateBoshAndPipeline env args config metadata).2 →
      d = true) ∧
    (∀ b, Event.setPipeline b ∈ (updateBoshAndPipeline env args config metadata).2 → b = true) ∧
    eventsPhased Event.isSetPipeline Event.isBoshDeploy
      (updateBoshAndPipeline env args config metadata).2 ∧
    (∀ s c d, Event.boshDeploy s c d ∈ (updateBoshAndPipeline env args config metadata).2 →
      Event.setPipeline true ∈ (updateBoshAndPipeline env args config metadata).2) ∧
    (∀ s c d, Event.boshDeploy s c d ∈ (deployBoshAndPipeline env args config metadata).2 →
      d = false) ∧
    (∀ b, Event.setPipeline b ∈ (deployBoshAndPipeline env args config metadata).2 → b = false) ∧
    eventsPhased Event.isBoshDeploy Event.isSetPipeline
      (deployBoshAndPipeline env args config metadata).2 ∧
    (∀ b, Event.setPipeline b ∈ (deployBoshAndPipeline env args config metadata).2 →
      ∃ c2, (deployBosh env config metadata false).1 = .ok c2) := by
  refine ⟨?_, ?_, ?_, ?_, ?_, ?_, ?_, ?_⟩
  · intro s c d hm
    have hall := updateBoshAndPipeline_all env args config metadata
      (fun e => match e with | .boshDeploy _ _ d2 => d2 == true | _ => true)
      (fun _ => rfl) (fun _ => rfl) (fun _ _ => rfl) (fun _ _ => rfl) rfl rfl
    have := List.all_eq_true.mp hall _ hm
    simpa using this
  · intro b hm
    have hall := updateBoshAndPipeline_all env args config metadata
      (fun e => match e with | .setPipeline b2 => b2 == true | _ => true)
      (fun _ => rfl) (fun _ => rfl) (fun _ _ => rfl) (fun _ _ => rfl) rfl rfl
    have := List.all_eq_true.mp hall _ hm
    simpa using this
  · rcases updateBoshAndPipeline_trace_shape env args config metadata with h | h | h
    · exact ⟨[.canConnect], [], by simp [h], by decide, by simp⟩
    · exact ⟨[.canConnect, .setPipeline true], [], by simp [h], by decide, by simp⟩
    · refine ⟨[.canConnect, .setPipeline true], (deployBosh env config metadata true).2,
        by rw [h], by decide, ?_⟩
      exact all_not_imp Event.isSetPipeline _
        (deployBosh_all env config metadata true (fun e => !e.isSetPipeline)
          (fun _ => rfl) (fun _ => rfl) (fun _ _ => rfl) (fun _ _ => rfl))
  · intro s c d hm
    rcases updateBoshAndPipeline_trace_shape env args config metadata with h | h | h <;>
      rw [h] at hm ⊢ <;> simp_all
  · intro s c d hm
    have hall := deployBoshAndPipeline_all env args config metadata
      (fun e => match e with | .boshDeploy _ _ d2 => d2 == false | _ => true)
      (fun _ => rfl) (fun _ => rfl) (fun _ _ => rfl) (fun _ _ => rfl) rfl
    have := List.all_eq_true.mp hall _ hm
    simpa using this
  · intro b hm
    have hall := deployBoshAndPipeline_all env args config metadata
      (fun e => match e with | .setPipeline b2 => b2 == false | _ => true)
      (fun _ => rfl) (fun _ => rfl) (fun _ _ => rfl) (fun _ _ => rfl) rfl
    have := List.all_eq_true.mp hall _ hm
    simpa using this
  · have hnp := all_not_imp Event.isSetPipeline _
      (deployBosh_all env config metadata false (fun e => !e.isSetPipeline)
        (fun _ => rfl) (fun _ => rfl) (fun _ _ => rfl) (fun _ _ => rfl))
    rcases deployBoshAndPipeline_trace_shape env args config metadata with ⟨h, _⟩ | ⟨h, _⟩
    · exact ⟨(deployBosh env config metadata false).2, [], by simp [h], hnp, by simp⟩
    · exact ⟨(deployBosh env config metadata false).2, [.setPipeline false], by rw [h], hnp,
        by decide⟩
  · intro b hm
    have hnp := all_not_imp Event.isSetPipeline _
      (deployBosh_all env config metadata false (fun e => !e.isSetPipeline)
        (fun _ => rfl) (fun _ => rfl) (fun _ _ => rfl) (fun _ _ => rfl))
    rcases deployBoshAndPipeline_trace_shape env args config metadata with ⟨h, _⟩ | ⟨h, hok⟩
    · rw [h] at hm
      have := hnp _ hm
      simp [Event.isSetPipeline] at this
    · exact hok

/-- Witness for C4: in a concrete healthy self-update run the deploy call
happens and the pipeline was set with the mismatch-tolerant flag. -/
theorem pipeline_deploy_ordering_by_mode_witness :
    Event.setPipeline true ∈ (updateBoshAndPipeline exEnv exArgsSelf exConfig exMetadata).2 :=
  (pipeline_deploy_ordering_by_mode exEnv exArgsSelf exConfig exMetadata).2.2.2.1
    "" "" true (by decide)

/-- **C9**: in self-update mode, when the connectivity probe does not report
a reachable concourse (it errors or returns false), the whole run fails with
an error, no pipeline-set call is made and no bosh deploy call is made. -/
theorem selfUpdate_unreachable_aborts (env : Env) (args : DeployArgs)
    (hsu : args.selfUpdate = true) (hcc : env.canConnect ≠ .ok true) :
    (∃ e, (Deploy env args).1 = .error e) ∧
    (∀ b, Event.setPipeline b ∉ (Deploy env args).2) ∧
    (∀ s c d, Event.boshDeploy s c d ∉ (Deploy env args).2) := by
  have hwrap : ∀ config metadata, ∃ e, updateBoshAndPipeline env args config metadata =
      (.error e, [.canConnect]) := by
    intro config metadata
    unfold updateBoshAndPipeline
    rcases henv : env.canConnect with e | b
    · exact ⟨.external e, rfl⟩
    · cases b
      · exact ⟨.concourseNotRunning, rfl⟩
      · exact absurd henv hcc
  have hmain : (∃ e, (Deploy env args).1 = .error e) ∧
      (Deploy env args).2.all (fun e => !e.isSetPipeline && !e.isBoshDeploy) = true := by
    unfold Deploy
    rcases hlc : loadConfig env with ⟨r0, t0⟩
    have ht0 : t0 = [] := by
      have h := loadConfig_trace env
      rw [hlc] at h
      exact h
    subst ht0
    rcases r0 with e0 | cfg
    · exact ⟨⟨e0, rfl⟩, rfl⟩
    · dsimp only
      rcases hct : checkPreTerraformConfigRequirements env args cfg with ⟨r1, t1⟩
      have hct_all : t1.all (fun e => !e.isSetPipeline && !e.isBoshDeploy) = true := by
        have h := checkPreTerraform_all env args cfg
          (fun e => !e.isSetPipeline && !e.isBoshDeploy) rfl (fun _ => rfl) (fun _ => rfl)
        rw [hct] at h
        exact h
      rcases r1 with e1 | cfg1
      · exact ⟨⟨e1, rfl⟩, hct_all⟩
      · dsimp only
        rcases hat : applyTerraform env cfg1 with ⟨r2, t2⟩
        have hat_all : t2.all (fun e => !e.isSetPipeline && !e.isBoshDeploy) = true := by
          have h := applyTerraform_all env cfg1
            (fun e => !e.isSetPipeline && !e.isBoshDeploy) rfl rfl
          rw [hat] at h
          exact h
        rcases r2 with e2 | md
        · exact ⟨⟨e2, rfl⟩, by simp_all [List.all_append]⟩
        · dsimp only
          rcases hcd : checkPreDeployConfigRequiments env args (args.domain != cfg.domain) cfg1 md
            with ⟨r3, t3⟩
          have hcd_all : t3.all (fun e => !e.isSetPipeline && !e.isBoshDeploy) = true := by
            have h := checkPreDeploy_all env args (args.domain != cfg.domain) cfg1 md
              (fun e => !e.isSetPipeline && !e.isBoshDeploy) (fun _ _ => rfl) (fun _ => rfl)
            rw [hcd] at h
            exact h
          rcases r3 with e3 | cfg3
          · exact ⟨⟨e3, rfl⟩, by simp_all [List.all_append]⟩
          · dsimp only
            rcases hff : env.flyFactory with _ | ef
            · rw [if_pos hsu]
              rcases hwrap cfg3 md with ⟨ew, hw⟩
              rw [hw]
              exact ⟨⟨ew, rfl⟩, by simp_all [List.all_append, Event.isSetPipeline,
                Event.isBoshDeploy]⟩
            · exact ⟨⟨.external ef, rfl⟩, by simp_all [List.all_append]⟩
  obtain ⟨he, hall⟩ := hmain
  refine ⟨he, ?_, ?_⟩
  · intro b hm
    have := List.all_eq_true.mp hall _ hm
    simp [Event.isSetPipeline, Event.isBoshDeploy] at this
  · intro s c d hm
    have := List.all_eq_true.mp hall _ hm
    simp [Event.isSetPipeline, Event.isBoshDeploy] at this

/-- Witness for C9: an unreachable concourse aborts a concrete self-update
run with the not-running error, without setting the pipeline. -/
theorem selfUpdate_unreachable_aborts_witness :
    (Deploy exEnvDown exArgsSelf).1 = .error .concourseNotRunning ∧
    Event.setPipeline true ∉ (Deploy exEnvDown exArgsSelf).2 :=
  ⟨by decide,
    (selfUpdate_unreachable_aborts exEnvDown exArgsSelf rfl (by decide)).2.1 true⟩

/-! ## Error shape lemmas: only the region gate produces the region error -/

theorem setUserIP_errShape (env : Env) (config : Config) :
    errNotRegion (setUserIP env config).1 := by
  intro e h
  revert h
  unfold setUserIP
  split <;> (try dsimp only) <;> (try split) <;> (try split) <;> (try split) <;>
    intro h <;> (try cases h) <;> rfl

theorem setHostedZone_errShape (env : Env) (args : DeployArgs) (config : Config) :
    errNotRegion (setHostedZone env args config).1 := by
  intro e h
  revert h
  unfold setHostedZone
  split <;> (try dsimp only) <;> (try split) <;> (try split) <;> (try split) <;>
    intro h <;> (try cases h) <;> rfl

theorem preTerraformIPAndZone_errShape (env : Env) (args : DeployArgs) (conf : Config) :
    errNotRegion (preTerraformIPAndZone env args conf).1 := by
  intro e h
  revert h
  unfold preTerraformIPAndZone
  split
  next e2 t heq =>
    intro h
    cases h
    split at heq
    · simp at heq
    · exact setUserIP_errShape env conf e (by rw [heq])
  next conf3 t1 heq =>
    split
    next e2 t heq2 =>
      intro h
      cases h
      exact setHostedZone_errShape env args conf3 e (by rw [heq2])
    next conf4 t2 heq2 =>
      intro h
      cases h

theorem checkPreTerraform_errShape (env : Env) (args : DeployArgs) (conf : Config)
    (hreg : conf.region = args.awsRegion) :
    errNotRegion (checkPreTerraformConfigRequirements env args conf).1 := by
  intro e h
  unfold checkPreTerraformConfigRequirements at h
  dsimp only at h
  rw [if_neg (by simp [hreg])] at h
  exact preTerraformIPAndZone_errShape env args _ e h

theorem applyTerraform_errShape (env : Env) (config : Config) :
    errNotRegion (applyTerraform env config).1 := by
  intro e h
  revert h
  unfold applyTerraform
  split <;> (try split) <;> (try split) <;> (try split) <;>
    intro h <;> (try cases h) <;> rfl

theorem ensureDirectorCerts_errShape (env : Env) (config : Config) (metadata : Metadata) :
    errNotRegion (ensureDirectorCerts env config metadata).1 := by
  intro e h
  revert h
  unfold ensureDirectorCerts
  split <;> (try dsimp only) <;> (try split) <;> (try split) <;>
    intro h <;> (try cases h) <;> rfl

theorem ensureConcourseCerts_errShape (env : Env) (args : DeployArgs) (domainUpdated : Bool)
    (config : Config) (metadata : Metadata) :
    errNotRegion (ensureConcourseCerts env args domainUpdated config metadata).1 := by
  intro e h
  revert h
  unfold ensureConcourseCerts
  split <;> (try split) <;> (try split) <;> intro h <;> (try cases h) <;> rfl

theorem preDeployCertsAndSizing_errShape (env : Env) (args : DeployArgs) (isDomainUpdated : Bool)
    (config : Config) (metadata : Metadata) :
    errNotRegion (preDeployCertsAndSizing env args isDomainUpdated config metadata).1 := by
  intro e h
  revert h
  unfold preDeployCertsAndSizing
  split
  next e2 t heq =>
    intro h
    cases h
    exact ensureDirectorCerts_errShape env config metadata e (by rw [heq])
  next c1 t1 heq =>
    split
    next e2 t heq2 =>
      intro h
      cases h
      exact ensureConcourseCerts_errShape env args isDomainUpdated c1 metadata e (by rw [heq2])
    next c2 t2 heq2 =>
      dsimp only
      split <;> intro h <;> (try cases h) <;> rfl

theorem checkPreDeploy_errShape (env : Env) (args : DeployArgs) (isDomainUpdated : Bool)
    (config : Config) (metadata : Metadata) :
    errNotRegion (checkPreDeployConfigRequiments env args isDomainUpdated config metadata).1 := by
  intro e h
  unfold checkPreDeployConfigRequiments at h
  exact preDeployCertsAndSizing_errShape env args isDomainUpdated _ metadata e h

theorem deployBosh_errShape (env : Env) (config : Config) (metadata : Metadata) (detach : Bool) :
    errNotRegion (deployBosh env config metadata detach).1 := by
  intro e h
  revert h
  unfold deployBosh
  split <;> (try split) <;> (try split) <;> (try split) <;> (try dsimp only) <;>
    (try split) <;> (try split) <;> intro h <;> (try cases h) <;> rfl

theorem deployBoshAndPipeline_errShape (env : Env) (args : DeployArgs) (config : Config)
    (metadata : Metadata) :
    errNotRegion (deployBoshAndPipeline env args config metadata).1 := by
  intro e h
  revert h
  unfold deployBoshAndPipeline
  split
  next e2 t heq =>
    intro h
    cases h
    exact deployBosh_errShape env config metadata false e (by rw [heq])
  next c t heq =>
    split <;> (try split) <;> intro h <;> (try cases h) <;> rfl

theorem updateBoshAndPipeline_errShape (env : Env) (args : DeployArgs) (config : Config)
    (metadata : Metadata) :
    errNotRegion (updateBoshAndPipeline env args config metadata).1 := by
  intro e h
  revert h
  unfold updateBoshAndPipeline
  split
  · intro h
    cases h
    rfl
  · intro h
    cases h
    rfl
  · split
    · intro h
      cases h
      rfl
    · split
      next e2 t heq =>
        intro h
        cases h
        exact deployBosh_errShape env config metadata true e (by rw [heq])
      next c t heq =>
        split <;> intro h <;> (try cases h) <;> rfl

theorem loadConfig_errShape (env : Env) : errNotRegion (loadConfig env).1 := by
  intro e h
  revert h
  unfold loadConfig
  split <;> (try split) <;> (try split) <;> intro h <;> (try cases h) <;> rfl

/-! ## Field preservation and sizing lemmas -/

theorem setUserIP_okFields (env : Env) (config : Config) :
    ∀ c, (setUserIP env config).1 = .ok c →
      c.domain = config.domain ∧ c.directorCACert = config.directorCACert ∧
      c.concourseCert = config.concourseCert := by
  intro c h
  revert h
  unfold setUserIP
  split <;> (try dsimp only) <;> (try split) <;> (try split) <;> (try split) <;>
    intro h <;> (try cases h) <;> exact ⟨rfl, rfl, rfl⟩

theorem setHostedZone_okFields (env : Env) (args : DeployArgs) (config : Config) :
    ∀ c, (setHostedZone env args config).1 = .ok c →
      c.directorCACert = config.directorCACert ∧ c.concourseCert = config.concourseCert ∧
      (args.domain = "" → c.domain = config.domain) ∧
      (args.domain ≠ "" → c.domain = args.domain) := by
  intro c h
  revert h
  unfold setHostedZone
  split
  next hdom =>
    intro h
    cases h
    exact ⟨rfl, rfl, fun _ => rfl, fun hne => absurd hdom hne⟩
  next hdom =>
    dsimp only
    split <;> (try dsimp only) <;> (try split) <;> (try split) <;> intro h <;> (try cases h) <;>
      exact ⟨rfl, rfl, fun heq => absurd heq hdom, fun _ => rfl⟩

theorem preTerraformIPAndZone_okFields (env : Env) (args : DeployArgs) (conf : Config) :
    ∀ c, (preTerraformIPAndZone env args conf).1 = .ok c →
      c.directorCACert = conf.directorCACert ∧ c.concourseCert = conf.concourseCert ∧
      (args.domain = "" → c.domain = conf.domain) ∧
      (args.domain ≠ "" → c.domain = args.domain) := by
  intro c h
  revert h
  unfold preTerraformIPAndZone
  split
  next e2 t heq =>
    intro h
    cases h
  next conf3 t1 heq =>
    split
    next e2 t heq2 =>
      intro h
      cases h
    next conf4 t2 heq2 =>
      intro h
      cases h
      have h34 := setHostedZone_okFields env args conf3 c (by rw [heq2])
      have h3 : conf3.domain = conf.domain ∧ conf3.directorCACert = conf.directorCACert ∧
          conf3.concourseCert = conf.concourseCert := by
        split at heq
        · simp only [Prod.mk.injEq, Except.ok.injEq] at heq
          rw [← heq.1]
          exact ⟨rfl, rfl, rfl⟩
        · exact setUserIP_okFields env conf conf3 (by rw [heq])
      refine ⟨h34.1.trans h3.2.1, h34.2.1.trans h3.2.2, ?_, h34.2.2.2⟩
      intro hdom
      exact (h34.2.2.1 hdom).trans h3.1

theorem checkPreTerraform_okFields (env : Env) (args : DeployArgs) (conf : Config) :
    ∀ c, (checkPreTerraformConfigRequirements env args conf).1 = .ok c →
      c.directorCACert = conf.directorCACert ∧ c.concourseCert = conf.concourseCert ∧
      (args.domain ≠ "" → c.domain = args.domain) := by
  intro c h
  unfold checkPreTerraformConfigRequirements at h
  dsimp only at h
  revert h
  split
  · intro h
    cases h
  · intro h
    have hf := preTerraformIPAndZone_okFields env args _ c h
    by_cases hdb : args.dbSizeIsSet = true <;> simp [hdb] at hf <;>
      exact ⟨hf.1, hf.2.1, hf.2.2.2⟩

theorem checkPreDeploy_okSizing (env : Env) (args : DeployArgs) (isDomainUpdated : Bool)
    (config : Config) (metadata : Metadata) :
    ∀ c, (checkPreDeployConfigRequiments env args isDomainUpdated config metadata).1 = .ok c →
      c.concourseWorkerCount = args.workerCount ∧ c.concourseWorkerSize = args.workerSize ∧
      c.concourseWebSize = args.webSize := by
  intro c h
  revert h
  unfold checkPreDeployConfigRequiments preDeployCertsAndSizing
  split
  next e t heq =>
    intro h
    cases h
  next c1 t1 heq =>
    split
    next e t heq2 =>
      intro h
      cases h
    next c2 t2 heq2 =>
      dsimp only
      split <;> intro h <;> (try cases h) <;> exact ⟨rfl, rfl, rfl⟩

theorem deployBosh_okPreserve (env : Env) (config : Config) (metadata : Metadata)
    (detach : Bool) :
    ∀ c, (deployBosh env config metadata detach).1 = .ok c →
      c.concourseWorkerCount = config.concourseWorkerCount ∧
      c.concourseWorkerSize = config.concourseWorkerSize ∧
      c.concourseWebSize = config.concourseWebSize := by
  intro c h
  revert h
  unfold deployBosh
  split <;> (try split) <;> (try split) <;> (try split) <;> (try dsimp only) <;>
    (try split) <;> (try split) <;> intro h <;> (try cases h) <;> exact ⟨rfl, rfl, rfl⟩

theorem deployBoshAndPipeline_okPreserve (env : Env) (args : DeployArgs) (config : Config)
    (metadata : Metadata) :
    ∀ c, (deployBoshAndPipeline env args config metadata).1 = .ok c →
      c.concourseWorkerCount = config.concourseWorkerCount ∧
      c.concourseWorkerSize = config.concourseWorkerSize ∧
      c.concourseWebSize = config.concourseWebSize := by
  intro c h
  revert h
  unfold deployBoshAndPipeline
  split
  next e t heq =>
    intro h
    cases h
  next c3 t heq =>
    split <;> (try split) <;> intro h <;> (try cases h) <;>
      exact deployBosh_okPreserve env config metadata false c (by rw [heq])

theorem updateBoshAndPipeline_okPreserve (env : Env) (args : DeployArgs) (config : Config)
    (metadata : Metadata) :
    ∀ c, (updateBoshAndPipeline env args config metadata).1 = .ok c →
      c.concourseWorkerCount = config.concourseWorkerCount ∧
      c.concourseWorkerSize = config.concourseWorkerSize ∧
      c.concourseWebSize = config.concourseWebSize := by
  intro c h
  revert h
  unfold updateBoshAndPipeline
  split
  · intro h
    cases h
  · intro h
    cases h
  · split
    · intro h
      cases h
    · split
      next e t heq =>
        intro h
        cases h
      next c3 t heq =>
        split <;> intro h <;> (try cases h) <;>
          exact deployBosh_okPreserve env config metadata true c (by rw [heq])

theorem Deploy_okSizing (env : Env) (args : DeployArgs) :
    ∀ c, (Deploy env args).1 = .ok c →
      c.concourseWorkerCount = args.workerCount ∧ c.concourseWorkerSize = args.workerSize ∧
      c.concourseWebSize = args.webSize := by
  intro c h
  revert h
  unfold Deploy
  split
  next e t heq =>
    intro h
    cases h
  next cfg t0 heq0 =>
    dsimp only
    split
    next e t heq =>
      intro h
      cases h
    next cfg1 t1 heq1 =>
      split
      next e t heq =>
        intro h
        cases h
      next md t2 heq2 =>
        split
        next e t heq =>
          intro h
          cases h
        next cfg3 t3 heq3 =>
          split
          · intro h
            cases h
          · split
            next e t heq =>
              intro h
              cases h
            next cfg4 t4 heq4 =>
              split
              · intro h
                cases h
              · intro h
                cases h
                have h3 := checkPreDeploy_okSizing env args (args.domain != cfg.domain) cfg1 md
                  cfg3 (by rw [heq3])
                have h4 : c.concourseWorkerCount = cfg3.concourseWorkerCount ∧
                    c.concourseWorkerSize = cfg3.concourseWorkerSize ∧
                    c.concourseWebSize = cfg3.concourseWebSize := by
                  split at heq4
                  · exact updateBoshAndPipeline_okPreserve env args cfg3 md c (by rw [heq4])
                  · exact deployBoshAndPipeline_okPreserve env args cfg3 md c (by rw [heq4])
                exact ⟨h4.1.trans h3.1, h4.2.1.trans h3.2.1, h4.2.2.trans h3.2.2⟩

/-- With a non-empty domain argument, a non-empty director CA, no user TLS
pair, a non-empty application certificate with more than 28 days remaining
and an unchanged domain, the post-terraform step calls no certificate
generator. -/
theorem checkPreDeploy_noCertGen_when_current (env : Env) (args : DeployArgs)
    (config : Config) (metadata : Metadata)
    (hdom : args.domain ≠ "") (hdca : config.directorCACert ≠ "") (htls : args.tlsCert = "")
    (hcc : config.concourseCert ≠ "")
    (httl : timeTillExpiry env config.concourseCert > 28 * 24 * hourNS) :
    (checkPreDeployConfigRequiments env args false config metadata).2.all
      (fun e => !e.isCertGen) = true := by
  unfold checkPreDeployConfigRequiments
  rw [if_neg hdom]
  unfold preDeployCertsAndSizing
  rw [ensureDirectorCerts_keep env config metadata hdca]
  dsimp only
  rw [ensureConcourseCerts_keep env args false config metadata htls hcc rfl httl]
  dsimp only
  split <;> rfl

/-- **C8 counterexample**: the second deploy with arguments identical to the
first is not idempotent when no domain argument is supplied: after a first
no-domain deploy the stored domain is the ATC public IP while the argument
stays empty, so the domain-changed flag is set and the application
certificate is regenerated even though more than 28 days of validity
remain. -/
theorem second_deploy_without_domain_regenerates_cert :
    (Deploy exEnvFirst exArgsNoDomain).1 = .ok exCfgAfterFirst ∧
    exEnvSecond.loadOrCreate = .ok (exCfgAfterFirst, false) ∧
    exCfgAfterFirst.concourseCert ≠ "" ∧
    timeTillExpiry exEnvSecond exCfgAfterFirst.concourseCert > 28 * 24 * hourNS ∧
    Event.certGen "d" ["1.2.3.4"] ∈ (Deploy exEnvSecond exArgsNoDomain).2 :=
  ⟨by decide, rfl, by decide, by decide, by decide⟩

/-- **C8 amended**: a second deploy against the stored configuration of an
identical earlier run, with a non-empty domain argument, produces no
region-mismatch error, never calls the certificate generator (neither
director nor application bundle is regenerated, given more than 28 days of
validity remain), and any successfully persisted final configuration carries
the sizing fields from the arguments. -/
theorem second_deploy_idempotent_with_domain (env : Env) (args : DeployArgs) (cfg : Config)
    (h0 : (loadConfig env).1 = .ok cfg)
    (hdom : args.domain ≠ "")
    (hdomeq : cfg.domain = args.domain)
    (hreg : cfg.region = args.awsRegion)
    (hdca : cfg.directorCACert ≠ "")
    (htls : args.tlsCert = "")
    (hcc : cfg.concourseCert ≠ "")
    (httl : timeTillExpiry env cfg.concourseCert > 28 * 24 * hourNS) :
    (∀ e, (Deploy env args).1 = .error e → GoError.isRegionMismatch e = false) ∧
    (∀ s l, Event.certGen s l ∉ (Deploy env args).2) ∧
    (∀ c, (Deploy env args).1 = .ok c →
      c.concourseWorkerCount = args.workerCount ∧ c.concourseWorkerSize = args.workerSize ∧
      c.concourseWebSize = args.webSize) := by
  have hmain : (∀ e, (Deploy env args).1 = .error e → GoError.isRegionMismatch e = false) ∧
      (Deploy env args).2.all (fun e => !e.isCertGen) = true := by
    unfold Deploy
    rcases hlc : loadConfig env with ⟨r0, t0⟩
    have ht0 : t0 = [] := by
      have h := loadConfig_trace env
      rw [hlc] at h
      exact h
    rw [hlc] at h0
    simp only at h0
    subst h0
    subst ht0
    dsimp only
    rcases hct : checkPreTerraformConfigRequirements env args cfg with ⟨r1, t1⟩
    have hct_all : t1.all (fun e => !e.isCertGen) = true := by
      have h := checkPreTerraform_all env args cfg (fun e => !e.isCertGen) rfl
        (fun _ => rfl) (fun _ => rfl)
      rw [hct] at h
      exact h
    rcases r1 with e1 | cfg1
    · refine ⟨?_, hct_all⟩
      intro e he
      cases he
      exact checkPreTerraform_errShape env args cfg hreg e1 (by rw [hct])
    · dsimp only
      rcases hat : applyTerraform env cfg1 with ⟨r2, t2⟩
      have hat_all : t2.all (fun e => !e.isCertGen) = true := by
        have h := applyTerraform_all env cfg1 (fun e => !e.isCertGen) rfl rfl
        rw [hat] at h
        exact h
      rcases r2 with e2 | md
      · refine ⟨?_, by simp_all [List.all_append]⟩
        intro e he
        cases he
        exact applyTerraform_errShape env cfg1 e2 (by rw [hat])
      · dsimp only
        have hidu : (args.domain != cfg.domain) = false := by simp [hdomeq]
        rw [hidu]
        have hf := checkPreTerraform_okFields env args cfg cfg1 (by rw [hct])
        have hd1 : cfg1.directorCACert ≠ "" := by rw [hf.1]; exact hdca
        have hc1 : cfg1.concourseCert ≠ "" := by rw [hf.2.1]; exact hcc
        have ht1 : timeTillExpiry env cfg1.concourseCert > 28 * 24 * hourNS := by
          rw [hf.2.1]
          exact httl
        rcases hcd : checkPreDeployConfigRequiments env args false cfg1 md with ⟨r3, t3⟩
        have hcd_all : t3.all (fun e => !e.isCertGen) = true := by
          have h := checkPreDeploy_noCertGen_when_current env args cfg1 md hdom hd1 htls hc1 ht1
          rw [hcd] at h
          exact h
        rcases r3 with e3 | cfg3
        · refine ⟨?_, by simp_all [List.all_append]⟩
          intro e he
          cases he
          exact checkPreDeploy_errShape env args false cfg1 md e3 (by rw [hcd])
        · dsimp only
          rcases hff : env.flyFactory with _ | ef
          · rcases hbr : (if args.selfUpdate = true then updateBoshAndPipeline env args cfg3 md
                else deployBoshAndPipeline env args cfg3 md) with ⟨r4, t4⟩
            have hbr_all : t4.all (fun e => !e.isCertGen) = true := by
              split at hbr
              · have h := updateBoshAndPipeline_all env args cfg3 md (fun e => !e.isCertGen)
                  (fun _ => rfl) (fun _ => rfl) (fun _ _ => rfl) (fun _ _ => rfl) rfl rfl
                rw [hbr] at h
                exact h
              · have h := deployBoshAndPipeline_all env args cfg3 md (fun e => !e.isCertGen)
                  (fun _ => rfl) (fun _ => rfl) (fun _ _ => rfl) (fun _ _ => rfl) rfl
                rw [hbr] at h
                exact h
            have hbr_err : ∀ e, r4 = .error e → GoError.isRegionMismatch e = false := by
              intro e he
              split at hbr
              · refine updateBoshAndPipeline_errShape env args cfg3 md e ?_
                rw [hbr]
                exact he
              · refine deployBoshAndPipeline_errShape env args cfg3 md e ?_
                rw [hbr]
                exact he
            rcases r4 with e4 | cfg4
            · refine ⟨?_, by simp_all [List.all_append]⟩
              intro e he
              cases he
              exact hbr_err e4 rfl
            · dsimp only
              rcases hup : env.update cfg4 with _ | eu
              · refine ⟨?_, by simp_all [List.all_append, Event.isCertGen]⟩
                intro e he
                cases he
              · refine ⟨?_, by simp_all [List.all_append, Event.isCertGen]⟩
                intro e he
                cases he
                rfl
          · refine ⟨?_, by simp_all [List.all_append]⟩
            intro e he
            cases he
            rfl
  obtain ⟨herr, hall⟩ := hmain
  refine ⟨herr, ?_, Deploy_okSizing env args⟩
  intro s l hm
  have := List.all_eq_true.mp hall _ hm
  simp [Event.isCertGen] at this

/-- Witness for the amended C8: a concrete second run with a domain argument
regenerates nothing and keeps the argument sizing. -/
theorem second_deploy_idempotent_with_domain_witness :
    Event.certGen "d" ["ci.example.com"] ∉ (Deploy exEnv exArgs).2 :=
  (second_deploy_idempotent_with_domain exEnv exArgs exConfig (by decide) (by decide) rfl rfl
    (by decide) rfl (by decide) (by decide)).2.1 "d" ["ci.example.com"]

end ConcourseUp
